import Mathlib

/-!
ESP32 power-management demo: sleep-mode runner and frequency-sweep runner.

A shallow embedding of `main/sleep_modes.c`, `main/sleep_modes.h`, `main/frequency.c`
and `main/frequency.h`.

The two runners only call into the vendor hardware-abstraction layer, so the embedding is
a trace semantics: every call that leaves the program (GPIO, delay, log, `printf`, power
management, sleep, clock) appends one `Event` to a chronological trace, and the answers of
the vendor layer come from a `World`, an arbitrary deterministic environment that may look
at the whole history so far.  Unbounded `while (1)` loops take a fuel argument that counts
loop iterations; running out of fuel yields `Status.running` (the loop is still going).

Conventions taken from the vendor headers, which the sources rely on:
* `ESP_ERROR_CHECK(x)` evaluates `x` and aborts the program when the result is not `ESP_OK`;
* `esp_deep_sleep_start()` does not return on hardware; the world may let it return so that
  a mocked entry point can be described;
* `vTaskDelay(pdMS_TO_TICKS(d))` is recorded with its millisecond argument `d`.
-/

namespace PowerManagement

/-! ## Vendor types -/

/-- Vendor status code `esp_err_t` (a C `int`). -/
abbrev esp_err_t := Int

/-- The success code `ESP_OK`. -/
def ESP_OK : esp_err_t := 0

/-- The generic failure code `ESP_FAIL`. -/
def ESP_FAIL : esp_err_t := -1

/-- Pin direction, `gpio_mode_t` (the two directions a demo board uses). -/
inductive gpio_mode_t where
  | GPIO_MODE_INPUT
  | GPIO_MODE_OUTPUT
  deriving DecidableEq, Repr

/-- The pin number `GPIO_NUM_2`. -/
def GPIO_NUM_2 : Nat := 2

/-- Power-management configuration `esp_pm_config_t`. -/
structure esp_pm_config_t where
  min_freq_mhz : Int
  max_freq_mhz : Int
  light_sleep_enable : Bool
  deriving DecidableEq, Repr

/-- One variadic argument of a `printf`-style call. `ratio n d` stands for the `float`
quotient `(float)n / d`, kept symbolic. -/
inductive Arg where
  | num (v : Int)
  | str (s : String)
  | ratio (n : Nat) (d : Nat)
  deriving DecidableEq, Repr

/-- One observable call made by the program, with the answer it received. -/
inductive Event where
  | gpio_reset_pin (pin : Nat)
  | gpio_set_direction (pin : Nat) (mode : gpio_mode_t)
  | gpio_set_level (pin : Nat) (level : Nat)
  | vTaskDelay (ms : Nat)
  | ESP_LOGI (tag : String) (fmt : String) (args : List Arg)
  | printf (fmt : String) (args : List Arg)
  | esp_sleep_enable_timer_wakeup (time_in_us : Nat) (ret : esp_err_t)
  | esp_light_sleep_start (ret : esp_err_t)
  | esp_deep_sleep_start
  | esp_pm_get_configuration (out : esp_pm_config_t)
  | esp_timer_get_time (ret : Int)
  | esp_pm_configure (cfg : esp_pm_config_t) (ret : esp_err_t)
  | esp_pm_dump_locks
  | esp_clk_tree_src_get_freq_hz (ret : esp_err_t) (hz : Nat)
  deriving DecidableEq, Repr

/-- The vendor layer: each answer may depend on the whole history of calls so far.
`esp_pm_get_configuration` yields the contents of the caller's structure after the call
(its status code is discarded by the source); `esp_clk_tree_src_get_freq_hz` yields a status
and the value left in the caller's `uint32_t`. -/
structure World where
  esp_sleep_enable_timer_wakeup : List Event → Nat → esp_err_t
  esp_light_sleep_start : List Event → esp_err_t
  esp_deep_sleep_start_returns : List Event → Bool
  esp_pm_get_configuration : List Event → esp_pm_config_t
  esp_timer_get_time : List Event → Int
  esp_pm_configure : List Event → esp_pm_config_t → esp_err_t
  esp_clk_tree_src_get_freq_hz : List Event → esp_err_t × Nat

/-- How a (partial) execution ended: `returned` the function returned to its caller,
`aborted` an `ESP_ERROR_CHECK` failed, `halted` deep sleep was entered and did not return,
`running` the fuel ran out inside an unbounded loop. -/
inductive Status where
  | returned
  | aborted
  | halted
  | running
  deriving DecidableEq, Repr

/-- Conversion of a signed 64-bit value to `uint64_t`. -/
def to_uint64 (x : Int) : Nat := (x % (2 ^ 64 : Int)).toNat

/-- Subtraction in `uint64_t`. -/
def sub_uint64 (a b : Nat) : Nat := (a % 2 ^ 64 + 2 ^ 64 - b % 2 ^ 64) % 2 ^ 64

/-! ## `sleep_modes.h` -/

/-- Enumerator `ACTIVE` of `power_modes_t`. -/
def ACTIVE : Int := 0

/-- Enumerator `LIGHT_SLEEP_TIMER` of `power_modes_t`. -/
def LIGHT_SLEEP_TIMER : Int := 1

/-- Enumerator `DEEP_SLEEP_TIMER` of `power_modes_t`. -/
def DEEP_SLEEP_TIMER : Int := 2

/-- The enumerators of `power_modes_t`, by name, in declaration order. -/
def power_modes_t : List (String × Int) :=
  [("ACTIVE", ACTIVE), ("LIGHT_SLEEP_TIMER", LIGHT_SLEEP_TIMER),
   ("DEEP_SLEEP_TIMER", DEEP_SLEEP_TIMER)]

/-- The build-time configuration surface: the macros `POWER_MODE` (an `int`-valued
expression; nothing forces it to be an enumerator) and `WAKE_TIMER_US`. -/
structure Build where
  POWER_MODE : Int
  WAKE_TIMER_US : Nat

/-- The defaults of `sleep_modes.h`: `DEEP_SLEEP_TIMER` and `5ULL * 1000000ULL`. -/
def Build.default : Build := ⟨DEEP_SLEEP_TIMER, 5 * 1000000⟩

/-! ## `sleep_modes.c` -/

/-- The log tag. -/
def TAG : String := "PM_DEMO"

/-- Function `blink_once`: one short ON pulse on GPIO 2. The status codes of the GPIO calls are
discarded by the source. -/
def blink_once (tr : List Event) : List Event :=
  let led := GPIO_NUM_2
  tr ++ [Event.gpio_reset_pin led,
         Event.gpio_set_direction led gpio_mode_t.GPIO_MODE_OUTPUT,
         Event.gpio_set_level led 1,
         Event.vTaskDelay 100,
         Event.gpio_set_level led 0]

/-- The `while (1)` of `stay_active_loop`. -/
def stay_active_while : Nat → List Event → List Event × Status
  | 0, tr => (tr, Status.running)
  | fuel + 1, tr => stay_active_while fuel (blink_once tr ++ [Event.vTaskDelay 900])

/-- Function `stay_active_loop`: log the mode, then blink forever. -/
def stay_active_loop (fuel : Nat) (tr : List Event) : List Event × Status :=
  stay_active_while fuel (tr ++ [Event.ESP_LOGI TAG "ACTIVE" []])

/-- Function `enter_light_sleep_timer`: log, arm the timer, light sleep, log the wake-up. -/
def enter_light_sleep_timer (b : Build) (w : World) (tr : List Event) :
    List Event × Status :=
  let us := b.WAKE_TIMER_US % 2 ^ 64
  let tr1 := tr ++ [Event.ESP_LOGI TAG "LIGHT_SLEEP: %llus" [Arg.num (us / 1000000 : Nat)]]
  let r1 := w.esp_sleep_enable_timer_wakeup tr1 us
  let tr2 := tr1 ++ [Event.esp_sleep_enable_timer_wakeup us r1]
  if r1 ≠ ESP_OK then (tr2, Status.aborted)
  else
    let r2 := w.esp_light_sleep_start tr2
    let tr3 := tr2 ++ [Event.esp_light_sleep_start r2]
    if r2 ≠ ESP_OK then (tr3, Status.aborted)
    else (tr3 ++ [Event.ESP_LOGI TAG "Woke up from light sleep." []], Status.returned)

/-- Function `enter_deep_sleep_timer`: log, arm the timer, deep sleep. -/
def enter_deep_sleep_timer (b : Build) (w : World) (tr : List Event) :
    List Event × Status :=
  let us := b.WAKE_TIMER_US % 2 ^ 64
  let tr1 := tr ++ [Event.ESP_LOGI TAG "DEEP_SLEEP: %llus." [Arg.num (us / 1000000 : Nat)]]
  let r1 := w.esp_sleep_enable_timer_wakeup tr1 us
  let tr2 := tr1 ++ [Event.esp_sleep_enable_timer_wakeup us r1]
  if r1 ≠ ESP_OK then (tr2, Status.aborted)
  else
    let tr3 := tr2 ++ [Event.esp_deep_sleep_start]
    if w.esp_deep_sleep_start_returns tr3 then (tr3, Status.returned)
    else (tr3, Status.halted)

/-- The `while (1) { blink_once(); enter_light_sleep_timer(); }` of the
`LIGHT_SLEEP_TIMER` case. -/
def light_sleep_while (b : Build) (w : World) : Nat → List Event → List Event × Status
  | 0, tr => (tr, Status.running)
  | fuel + 1, tr =>
    match enter_light_sleep_timer b w (blink_once tr) with
    | (tr1, Status.returned) => light_sleep_while b w fuel tr1
    | r => r

/-- The text printed by the `default:` case. -/
def unknown_mode_message : String :=
  "POWER_MODE unknown. Use: ACTIVE, LIGHT_SLEEP_TIMER, LIGHT_SLEEP_GPIO, DEEP_SLEEP_TIMER, DEEP_SLEEP_GPIO"

/-- Function `compare_sleep_modes_power_consumption`: the `switch (POWER_MODE)`. -/
def compare_sleep_modes_power_consumption (b : Build) (w : World) (fuel : Nat) :
    List Event × Status :=
  if b.POWER_MODE = ACTIVE then stay_active_loop fuel []
  else if b.POWER_MODE = LIGHT_SLEEP_TIMER then light_sleep_while b w fuel []
  else if b.POWER_MODE = DEEP_SLEEP_TIMER then enter_deep_sleep_timer b w []
  else ([Event.printf unknown_mode_message []], Status.returned)

/-! ## `frequency.c` -/

/-- The `inttypes.h` conversion `PRIu32` of the target toolchain. -/
def PRIu32 : String := "lu"

/-- The `inttypes.h` conversion `PRIu64` of the target toolchain. -/
def PRIu64 : String := "llu"

/-- The C expression `b ? "TRUE" : "FALSE"`. -/
def true_false (b : Bool) : String := if b then "TRUE" else "FALSE"

/-- The format of the report line of `print_cpu_hz`. -/
def print_cpu_hz_fmt : String := "%s: %" ++ PRIu32 ++ "MHz\n"

/-- Function `print_cpu_hz`: read the CPU clock into a `uint32_t`, print `hz / 1000000` under the
label. -/
def print_cpu_hz (w : World) (label : String) (tr : List Event) : List Event × Status :=
  let q := w.esp_clk_tree_src_get_freq_hz tr
  let hz := q.2 % 2 ^ 32
  let tr1 := tr ++ [Event.esp_clk_tree_src_get_freq_hz q.1 hz]
  if q.1 ≠ ESP_OK then (tr1, Status.aborted)
  else (tr1 ++ [Event.printf print_cpu_hz_fmt [Arg.str label, Arg.num (hz / 1000000 : Nat)]],
        Status.returned)

/-- The assignment `cfg.min_freq_mhz = cfg.max_freq_mhz = t`. -/
def set_fixed (cfg : esp_pm_config_t) (t : Int) : esp_pm_config_t :=
  { cfg with max_freq_mhz := t, min_freq_mhz := t }

/-- One step of the sweep after the assignment to `cfg`: submit the configuration, print
the clock, wait, print a newline. -/
def sweep_step (w : World) (cfg : esp_pm_config_t) (label : String) (tr : List Event) :
    List Event × Status :=
  let r := w.esp_pm_configure tr cfg
  let tr1 := tr ++ [Event.esp_pm_configure cfg r]
  if r ≠ ESP_OK then (tr1, Status.aborted)
  else
    match print_cpu_hz w label tr1 with
    | (tr2, Status.returned) =>
      (tr2 ++ [Event.vTaskDelay 2000, Event.printf "\n" []], Status.returned)
    | r => r

/-- The body of the sweep `while (1)`: the three steps 80, 160, 240. -/
def sweep_body (w : World) (cfg : esp_pm_config_t) (tr : List Event) : List Event × Status :=
  match sweep_step w (set_fixed cfg 80) "Frequency after cfg [80-80]" tr with
  | (tr1, Status.returned) =>
    match sweep_step w (set_fixed (set_fixed cfg 80) 160) "Frequency after cfg [160-160]" tr1 with
    | (tr2, Status.returned) =>
      sweep_step w (set_fixed (set_fixed (set_fixed cfg 80) 160) 240)
        "Frequency after cfg [240-240]" tr2
    | r => r
  | r => r

/-- The sweep `while (1)`. -/
def sweep_while (w : World) : Nat → esp_pm_config_t → List Event → List Event × Status
  | 0, _, tr => (tr, Status.running)
  | fuel + 1, cfg, tr =>
    match sweep_body w cfg tr with
    | (tr1, Status.returned) =>
      sweep_while w fuel (set_fixed (set_fixed (set_fixed cfg 80) 160) 240) tr1
    | r => r

/-- The format of the line that reports the default configuration. -/
def default_cfg_fmt : String :=
  "\nDefault cfg:\nmin_freq_mhz = %d\nmax_freq_mhz = %d\nlight_sleep_enable = %s\n\n"

/-- The format of the line that reports the first configuration. -/
def first_cfg_fmt : String :=
  "After first cfg:\nmin_freq_mhz = %d\nmax_freq_mhz = %d\nlight_sleep_enable = %s\n"

/-- The format of the line that reports the elapsed time of the first configuration. -/
def elapsed_fmt : String := "This reconfiguration took %" ++ PRIu64 ++ "us, %.2fms.\n"

/-- The remark printed after the lock dump. -/
def locks_remark : String :=
  "Frequency is always set to max_freq_mhz due to the active rtos0 power management lock via Dynamic Frequency Scaling\n\n"

/-- Function `compare_clock_speeds_power_consumption`: report the default configuration, time
the first wide-range configuration, dump the locks, then sweep forever. -/
def compare_clock_speeds_power_consumption (w : World) (fuel : Nat) : List Event × Status :=
  -- 1) Show default PM configuration
  let default_cfg := w.esp_pm_get_configuration []
  let tr1 := [Event.esp_pm_get_configuration default_cfg,
              Event.printf default_cfg_fmt
                [Arg.num default_cfg.min_freq_mhz, Arg.num default_cfg.max_freq_mhz,
                 Arg.str (true_false default_cfg.light_sleep_enable)]]
  -- 2) Apply initial wide range and measure reconfiguration time
  let t0 := w.esp_timer_get_time tr1
  let frequency_change_t0 := to_uint64 t0
  let tr2 := tr1 ++ [Event.esp_timer_get_time t0]
  let cfg : esp_pm_config_t := ⟨80, 240, false⟩
  let r := w.esp_pm_configure tr2 cfg
  let tr3 := tr2 ++ [Event.esp_pm_configure cfg r]
  if r ≠ ESP_OK then (tr3, Status.aborted)
  else
    let t1 := w.esp_timer_get_time tr3
    let frequency_change_dt_us := sub_uint64 (to_uint64 t1) frequency_change_t0
    let tr4 := tr3 ++ [Event.esp_timer_get_time t1,
                Event.printf first_cfg_fmt
                  [Arg.num cfg.min_freq_mhz, Arg.num cfg.max_freq_mhz,
                   Arg.str (true_false cfg.light_sleep_enable)],
                Event.printf elapsed_fmt
                  [Arg.num (frequency_change_dt_us : Nat),
                   Arg.ratio frequency_change_dt_us 1000],
                -- 3) Show active PM locks
                Event.printf "\n" [],
                Event.esp_pm_dump_locks,
                Event.printf locks_remark []]
    -- 4) Sweep fixed frequencies: 80, 160, 240 MHz
    sweep_while w fuel cfg tr4

/-! ## Observations on traces -/

/-- The level driven on `pin` after a history: the last `gpio_set_level` since the last
`gpio_reset_pin`, if any. -/
def driven_level (pin : Nat) (tr : List Event) : Option Nat :=
  tr.foldl (fun s e =>
    match e with
    | Event.gpio_reset_pin p => if p = pin then none else s
    | Event.gpio_set_level p v => if p = pin then some v else s
    | _ => s) none

/-- Milliseconds spent in delays over a history, every other call taking no time. -/
def elapsed_ms (tr : List Event) : Nat :=
  (tr.map (fun e => match e with
    | Event.vTaskDelay ms => ms
    | _ => 0)).sum

/-- Whether an event is a call into the sleep hardware (arm the wake timer, light sleep,
deep sleep). -/
def is_sleep_call : Event → Bool
  | Event.esp_sleep_enable_timer_wakeup _ _ => true
  | Event.esp_light_sleep_start _ => true
  | Event.esp_deep_sleep_start => true
  | _ => false

/-- Whether an event is log output (`ESP_LOGI` or `printf`). -/
def is_output : Event → Bool
  | Event.ESP_LOGI _ _ _ => true
  | Event.printf _ _ => true
  | _ => false

/-- The calls of a trace other than log output, in order. -/
def service_calls (tr : List Event) : List Event := tr.filter (fun e => !is_output e)

/-- Whether an event is a checked call that reported failure: a configuration submission,
a wake-timer arm call, a light-sleep entry or a clock query with a status other than
`ESP_OK`. -/
def is_failure : Event → Bool
  | Event.esp_pm_configure _ r => r ≠ ESP_OK
  | Event.esp_sleep_enable_timer_wakeup _ r => r ≠ ESP_OK
  | Event.esp_light_sleep_start r => r ≠ ESP_OK
  | Event.esp_clk_tree_src_get_freq_hz r _ => r ≠ ESP_OK
  | _ => false

/-- The elapsed-microsecond values reported in a trace, in order. -/
def reported_elapsed (tr : List Event) : List Arg :=
  tr.filterMap (fun e => match e with
    | Event.printf fmt (a :: _) => if fmt = elapsed_fmt then some a else none
    | _ => none)

/-- The mode names a diagnostic text lists: the comma-separated items after `Use:`. -/
def split_names : List Char → List Char → List String
  | cur, [] => [String.mk cur.reverse]
  | cur, c :: cs =>
    if c = ',' then String.mk cur.reverse :: split_names [] cs
    else if c = ' ' then split_names cur cs
    else split_names (c :: cur) cs

/-- The part of a text after its first colon. -/
def after_colon : List Char → List Char
  | [] => []
  | c :: cs => if c = ':' then cs else after_colon cs

/-- The mode names listed by a diagnostic text. -/
def listed_names (msg : String) : List String := split_names [] (after_colon msg.data)

/-- A world in which every call succeeds: the clock reads 1000 µs per recorded event, the
CPU always runs at 240 MHz, deep sleep does not return. -/
def World.nominal : World where
  esp_sleep_enable_timer_wakeup := fun _ _ => ESP_OK
  esp_light_sleep_start := fun _ => ESP_OK
  esp_deep_sleep_start_returns := fun _ => false
  esp_pm_get_configuration := fun _ => ⟨40, 160, false⟩
  esp_timer_get_time := fun h => 1000 * h.length
  esp_pm_configure := fun _ _ => ESP_OK
  esp_clk_tree_src_get_freq_hz := fun _ => (ESP_OK, 240000000)

/-- The nominal world with a deep-sleep entry point that returns (a mock). -/
def World.mocked_deep_sleep : World :=
  { World.nominal with esp_deep_sleep_start_returns := fun _ => true }

/-! ## Definitions used to state the properties -/

/-- The events of one iteration of the active loop. -/
def active_cycle : List Event :=
  [Event.gpio_reset_pin GPIO_NUM_2,
   Event.gpio_set_direction GPIO_NUM_2 gpio_mode_t.GPIO_MODE_OUTPUT,
   Event.gpio_set_level GPIO_NUM_2 1,
   Event.vTaskDelay 100,
   Event.gpio_set_level GPIO_NUM_2 0,
   Event.vTaskDelay 900]

/-- The events of one iteration of the light-sleep loop when both sleep calls succeed. -/
def light_sleep_cycle (b : Build) : List Event :=
  [Event.gpio_reset_pin GPIO_NUM_2,
   Event.gpio_set_direction GPIO_NUM_2 gpio_mode_t.GPIO_MODE_OUTPUT,
   Event.gpio_set_level GPIO_NUM_2 1,
   Event.vTaskDelay 100,
   Event.gpio_set_level GPIO_NUM_2 0,
   Event.ESP_LOGI TAG "LIGHT_SLEEP: %llus" [Arg.num (b.WAKE_TIMER_US / 1000000 : Nat)],
   Event.esp_sleep_enable_timer_wakeup b.WAKE_TIMER_US ESP_OK,
   Event.esp_light_sleep_start ESP_OK,
   Event.ESP_LOGI TAG "Woke up from light sleep." []]

/-- No checked call of the trace reported failure. -/
def clean (tr : List Event) : Prop := ∀ e ∈ tr, is_failure e = false

/-- Trace and status agree on failures: either nothing failed and the run did not abort,
or the run aborted and the one failed call is the last event. -/
def fail_last (tr : List Event) (s : Status) : Prop :=
  (s ≠ Status.aborted ∧ clean tr) ∨
    (s = Status.aborted ∧ ∃ l e, tr = l ++ [e] ∧ clean l ∧ is_failure e = true)

/-- A result extends a history by events that agree with its status on failures and that
contain no elapsed-time report. -/
def appends (tr : List Event) (r : List Event × Status) : Prop :=
  ∃ l, r.1 = tr ++ l ∧ fail_last l r.2 ∧ reported_elapsed l = []

/-- A world whose wake-timer arm call fails once 15 events have been recorded, that is,
from the second light-sleep cycle on. -/
def World.arm_fails_later : World :=
  { World.nominal with
    esp_sleep_enable_timer_wakeup := fun h _ => if h.length < 15 then ESP_OK else ESP_FAIL }

/-- The events before the sweep loop when the first configuration is accepted. -/
def sweep_prelude (c0 : esp_pm_config_t) (t0 t1 : Int) : List Event :=
  [Event.esp_pm_get_configuration c0,
   Event.printf default_cfg_fmt [Arg.num c0.min_freq_mhz, Arg.num c0.max_freq_mhz,
     Arg.str (true_false c0.light_sleep_enable)],
   Event.esp_timer_get_time t0,
   Event.esp_pm_configure ⟨80, 240, false⟩ ESP_OK,
   Event.esp_timer_get_time t1,
   Event.printf first_cfg_fmt [Arg.num 80, Arg.num 240, Arg.str (true_false false)],
   Event.printf elapsed_fmt
     [Arg.num (sub_uint64 (to_uint64 t1) (to_uint64 t0) : Nat),
      Arg.ratio (sub_uint64 (to_uint64 t1) (to_uint64 t0)) 1000],
   Event.printf "\n" [],
   Event.esp_pm_dump_locks,
   Event.printf locks_remark []]

/-- A world like the nominal one whose clock reads 1000000 and then 1000250. -/
def World.quarter_ms : World :=
  { World.nominal with
    esp_timer_get_time := fun h => if h.length < 3 then 1000000 else 1000250 }

/-- The events of sweep step `m` (0, 1 or 2) when its calls succeed and the clock query
leaves `hz` in the caller's variable. -/
def sweep_block : Nat → Nat → List Event
  | 0, hz =>
    [Event.esp_pm_configure ⟨80, 80, false⟩ ESP_OK,
     Event.esp_clk_tree_src_get_freq_hz ESP_OK hz,
     Event.printf print_cpu_hz_fmt
       [Arg.str "Frequency after cfg [80-80]", Arg.num (hz / 1000000 : Nat)],
     Event.vTaskDelay 2000, Event.printf "\n" []]
  | 1, hz =>
    [Event.esp_pm_configure ⟨160, 160, false⟩ ESP_OK,
     Event.esp_clk_tree_src_get_freq_hz ESP_OK hz,
     Event.printf print_cpu_hz_fmt
       [Arg.str "Frequency after cfg [160-160]", Arg.num (hz / 1000000 : Nat)],
     Event.vTaskDelay 2000, Event.printf "\n" []]
  | _, hz =>
    [Event.esp_pm_configure ⟨240, 240, false⟩ ESP_OK,
     Event.esp_clk_tree_src_get_freq_hz ESP_OK hz,
     Event.printf print_cpu_hz_fmt
       [Arg.str "Frequency after cfg [240-240]", Arg.num (hz / 1000000 : Nat)],
     Event.vTaskDelay 2000, Event.printf "\n" []]

/-- The label `Frequency after cfg [t-t]` of a fixed target `t`. -/
def sweep_label (t : Nat) : String :=
  "Frequency after cfg [" ++ toString t ++ "-" ++ toString t ++ "]"

/-- A world like the nominal one whose CPU clock follows the last submitted maximum. -/
def World.tracking : World :=
  { World.nominal with
    esp_clk_tree_src_get_freq_hz := fun h =>
      match h.getLast? with
      | some (Event.esp_pm_configure c _) => (ESP_OK, (c.max_freq_mhz * 1000000).toNat)
      | _ => (ESP_OK, 0) }

/-! ## The sleep-mode runner: which branches return -/

theorem stay_active_while_status (fuel : Nat) (tr : List Event) :
    (stay_active_while fuel tr).2 = Status.running := by
  induction fuel generalizing tr with
  | zero => rfl
  | succ n ih => simp only [stay_active_while]; exact ih _

theorem enter_light_sleep_timer_status (b : Build) (w : World) (tr : List Event) :
    (enter_light_sleep_timer b w tr).2 = Status.returned ∨
      (enter_light_sleep_timer b w tr).2 = Status.aborted := by
  unfold enter_light_sleep_timer
  simp only
  split
  · exact Or.inr rfl
  · split
    · exact Or.inr rfl
    · exact Or.inl rfl

theorem light_sleep_while_status (b : Build) (w : World) (fuel : Nat) (tr : List Event) :
    (light_sleep_while b w fuel tr).2 = Status.running ∨
      (light_sleep_while b w fuel tr).2 = Status.aborted := by
  induction fuel generalizing tr with
  | zero => exact Or.inl rfl
  | succ n ih =>
    simp only [light_sleep_while]
    rcases h : enter_light_sleep_timer b w (blink_once tr) with ⟨tr1, s⟩
    have hs := enter_light_sleep_timer_status b w (blink_once tr)
    rw [h] at hs
    rcases hs with hs | hs
    · simp only at hs
      subst hs
      exact ih tr1
    · simp only at hs
      subst hs
      exact Or.inr rfl

theorem enter_deep_sleep_timer_status (b : Build) (w : World) (tr : List Event)
    (hdeep : ∀ h, w.esp_deep_sleep_start_returns h = false) :
    (enter_deep_sleep_timer b w tr).2 = Status.halted ∨
      (enter_deep_sleep_timer b w tr).2 = Status.aborted := by
  unfold enter_deep_sleep_timer
  simp only [hdeep]
  split
  · exact Or.inr rfl
  · exact Or.inl rfl

/-- C1: for a `POWER_MODE` that is none of `ACTIVE`, `LIGHT_SLEEP_TIMER`, `DEEP_SLEEP_TIMER`,
the runner returns normally and its whole trace is the single diagnostic `printf` (no GPIO,
timer, sleep or delay call); and when deep sleep does not return, each of the three
recognised modes never ends in a normal return, whatever the fuel. -/
theorem unrecognised_mode_is_the_only_return (b : Build) (w : World) (fuel : Nat) :
    ((b.POWER_MODE ≠ ACTIVE ∧ b.POWER_MODE ≠ LIGHT_SLEEP_TIMER ∧
        b.POWER_MODE ≠ DEEP_SLEEP_TIMER) →
      compare_sleep_modes_power_consumption b w fuel =
        ([Event.printf unknown_mode_message []], Status.returned)) ∧
    ((∀ h, w.esp_deep_sleep_start_returns h = false) →
      (b.POWER_MODE = ACTIVE ∨ b.POWER_MODE = LIGHT_SLEEP_TIMER ∨
        b.POWER_MODE = DEEP_SLEEP_TIMER) →
      (compare_sleep_modes_power_consumption b w fuel).2 ≠ Status.returned) := by
  constructor
  · rintro ⟨h0, h1, h2⟩
    simp [compare_sleep_modes_power_consumption, h0, h1, h2]
  · intro hdeep hm
    unfold compare_sleep_modes_power_consumption
    split
    · rw [stay_active_loop, stay_active_while_status]; decide
    · split
      · rcases light_sleep_while_status b w fuel [] with h | h <;> rw [h] <;> decide
      · split
        · rcases enter_deep_sleep_timer_status b w [] hdeep with h | h <;> rw [h] <;> decide
        · rename_i h0 h1 h2
          rcases hm with h | h | h
          · exact absurd h h0
          · exact absurd h h1
          · exact absurd h h2

/-- C1 at concrete inputs: mode 7 returns after the one diagnostic line; the default build
(deep sleep) in the nominal world does not return. -/
theorem unrecognised_mode_is_the_only_return_witness :
    compare_sleep_modes_power_consumption ⟨7, 5000000⟩ World.nominal 3 =
        ([Event.printf unknown_mode_message []], Status.returned) ∧
      (compare_sleep_modes_power_consumption Build.default World.nominal 3).2 ≠
        Status.returned :=
  ⟨(unrecognised_mode_is_the_only_return ⟨7, 5000000⟩ World.nominal 3).1 (by decide),
   (unrecognised_mode_is_the_only_return Build.default World.nominal 3).2 (fun _ => rfl)
     (Or.inr (Or.inr rfl))⟩

/-! ## The diagnostic text -/

/-- C2 (the code at an unrecognised mode): with `POWER_MODE = 3` the runner prints a text
that lists five names, two of which, `LIGHT_SLEEP_GPIO` and `DEEP_SLEEP_GPIO`, are not
enumerators of `power_modes_t`; so the listed names are not the enumeration. -/
theorem unknown_mode_message_lists_absent_modes :
    compare_sleep_modes_power_consumption ⟨3, 5000000⟩ World.nominal 0 =
        ([Event.printf unknown_mode_message []], Status.returned) ∧
      listed_names unknown_mode_message =
        ["ACTIVE", "LIGHT_SLEEP_TIMER", "LIGHT_SLEEP_GPIO", "DEEP_SLEEP_TIMER",
         "DEEP_SLEEP_GPIO"] ∧
      "LIGHT_SLEEP_GPIO" ∉ power_modes_t.map Prod.fst ∧
      "DEEP_SLEEP_GPIO" ∉ power_modes_t.map Prod.fst ∧
      listed_names unknown_mode_message ≠ power_modes_t.map Prod.fst := by
  refine ⟨by decide, by decide, by decide, by decide, by decide⟩

/-! ## Deep sleep -/

/-- C3: in mode `DEEP_SLEEP_TIMER`, when the arm call succeeds, the trace is exactly the
mode log line, one `esp_sleep_enable_timer_wakeup(WAKE_TIMER_US)` and one
`esp_deep_sleep_start`, whether or not the deep-sleep entry returns; its hardware calls are
the arm call then the deep-sleep entry, and nothing (no call, GPIO write, delay or log)
follows the deep-sleep entry. -/
theorem deep_sleep_arms_once_then_sleeps (b : Build) (w : World) (fuel : Nat)
    (hmode : b.POWER_MODE = DEEP_SLEEP_TIMER) (hus : b.WAKE_TIMER_US < 2 ^ 64)
    (harm : ∀ h us, w.esp_sleep_enable_timer_wakeup h us = ESP_OK) :
    (compare_sleep_modes_power_consumption b w fuel).1 =
        [Event.ESP_LOGI TAG "DEEP_SLEEP: %llus." [Arg.num (b.WAKE_TIMER_US / 1000000 : Nat)],
         Event.esp_sleep_enable_timer_wakeup b.WAKE_TIMER_US ESP_OK,
         Event.esp_deep_sleep_start] ∧
      service_calls (compare_sleep_modes_power_consumption b w fuel).1 =
        [Event.esp_sleep_enable_timer_wakeup b.WAKE_TIMER_US ESP_OK,
         Event.esp_deep_sleep_start] ∧
      (compare_sleep_modes_power_consumption b w fuel).2 =
        (if w.esp_deep_sleep_start_returns (compare_sleep_modes_power_consumption b w fuel).1
          then Status.returned else Status.halted) := by
  have hm : b.WAKE_TIMER_US % 2 ^ 64 = b.WAKE_TIMER_US := Nat.mod_eq_of_lt hus
  have h0 : b.POWER_MODE ≠ ACTIVE := by rw [hmode]; decide
  have h1 : b.POWER_MODE ≠ LIGHT_SLEEP_TIMER := by rw [hmode]; decide
  have hrun : compare_sleep_modes_power_consumption b w fuel = enter_deep_sleep_timer b w [] := by
    unfold compare_sleep_modes_power_consumption
    rw [if_neg h0, if_neg h1, if_pos hmode]
  rw [hrun]
  unfold enter_deep_sleep_timer
  simp only [harm, hm, ne_eq, not_true_eq_false, if_false, List.nil_append, List.cons_append]
  refine ⟨?_, ?_, ?_⟩
  · split <;> rfl
  · split <;> simp [service_calls, is_output]
  · split <;> simp_all

/-- C3 at concrete inputs: the default build with a mocked deep-sleep entry that returns. -/
theorem deep_sleep_arms_once_then_sleeps_witness :
    (compare_sleep_modes_power_consumption Build.default World.mocked_deep_sleep 1).1 =
        [Event.ESP_LOGI TAG "DEEP_SLEEP: %llus." [Arg.num 5],
         Event.esp_sleep_enable_timer_wakeup 5000000 ESP_OK,
         Event.esp_deep_sleep_start] ∧
      (compare_sleep_modes_power_consumption Build.default World.mocked_deep_sleep 1).2 =
        Status.returned := by
  have h := deep_sleep_arms_once_then_sleeps Build.default World.mocked_deep_sleep 1 rfl
    (by decide) (fun _ _ => rfl)
  exact ⟨h.1, by decide⟩

/-! ## Repeated cycles -/

theorem length_cycles {α : Type} (cy : List α) (n : Nat) :
    (List.replicate n cy).flatten.length = n * cy.length := by
  induction n with
  | zero => simp
  | succ n ih =>
    rw [List.replicate_succ, List.flatten_cons, List.length_append, ih]
    ring

theorem getElem?_cycles {α : Type} (cy : List α) (n i : Nat) (hi : i < n * cy.length) :
    (List.replicate n cy).flatten[i]? = cy[i % cy.length]? := by
  induction n generalizing i with
  | zero => simp at hi
  | succ n ih =>
    rw [List.replicate_succ, List.flatten_cons]
    by_cases h : i < cy.length
    · rw [List.getElem?_append_left h, Nat.mod_eq_of_lt h]
    · have hle : cy.length ≤ i := Nat.le_of_not_lt h
      rw [List.getElem?_append_right hle, Nat.mod_eq_sub_mod hle]
      apply ih
      have : (n + 1) * cy.length = n * cy.length + cy.length := by ring
      omega

theorem take_cycles {α : Type} (cy : List α) (hc : 0 < cy.length) (n i : Nat)
    (hi : i ≤ n * cy.length) :
    (List.replicate n cy).flatten.take i =
      (List.replicate (i / cy.length) cy).flatten ++ cy.take (i % cy.length) := by
  induction n generalizing i with
  | zero =>
    have h0 : i = 0 := by simpa using hi
    subst h0
    simp
  | succ n ih =>
    rw [List.replicate_succ, List.flatten_cons]
    by_cases h : i < cy.length
    · rw [List.take_append_of_le_length (Nat.le_of_lt h), Nat.div_eq_of_lt h,
        Nat.mod_eq_of_lt h]
      simp
    · have hle : cy.length ≤ i := Nat.le_of_not_lt h
      have hi2 : i - cy.length ≤ n * cy.length := by
        have : (n + 1) * cy.length = n * cy.length + cy.length := by ring
        omega
      rw [List.take_append_eq_append_take, List.take_of_length_le hle, ih _ hi2,
        Nat.div_eq_sub_div hc hle, Nat.mod_eq_sub_mod hle, List.replicate_succ,
        List.flatten_cons, List.append_assoc]

theorem elapsed_ms_append (l₁ l₂ : List Event) :
    elapsed_ms (l₁ ++ l₂) = elapsed_ms l₁ + elapsed_ms l₂ := by
  simp [elapsed_ms, List.map_append, List.sum_append]

theorem elapsed_ms_cycles (cy : List Event) (n : Nat) :
    elapsed_ms (List.replicate n cy).flatten = n * elapsed_ms cy := by
  induction n with
  | zero => simp [elapsed_ms]
  | succ n ih =>
    rw [List.replicate_succ, List.flatten_cons, elapsed_ms_append, ih]
    ring

theorem driven_level_append (pin : Nat) (l₁ l₂ : List Event) :
    driven_level pin (l₁ ++ l₂) =
      l₂.foldl (fun s e =>
        match e with
        | Event.gpio_reset_pin p => if p = pin then none else s
        | Event.gpio_set_level p v => if p = pin then some v else s
        | _ => s) (driven_level pin l₁) := by
  simp [driven_level, List.foldl_append]

/-! ## The active loop -/

theorem stay_active_while_trace (fuel : Nat) (tr : List Event) :
    (stay_active_while fuel tr).1 = tr ++ (List.replicate fuel active_cycle).flatten := by
  induction fuel generalizing tr with
  | zero => simp [stay_active_while]
  | succ n ih =>
    simp only [stay_active_while]
    rw [ih, List.replicate_succ, List.flatten_cons]
    simp [blink_once, active_cycle]

theorem active_trace (b : Build) (w : World) (fuel : Nat) (hmode : b.POWER_MODE = ACTIVE) :
    (compare_sleep_modes_power_consumption b w fuel).1 =
      Event.ESP_LOGI TAG "ACTIVE" [] :: (List.replicate fuel active_cycle).flatten := by
  unfold compare_sleep_modes_power_consumption
  rw [if_pos hmode, stay_active_loop, stay_active_while_trace]
  rfl

theorem active_take (n k j : Nat) (hk : k < n) (hj : j ≤ 6) :
    (Event.ESP_LOGI TAG "ACTIVE" [] :: (List.replicate n active_cycle).flatten).take
        (1 + 6 * k + j) =
      Event.ESP_LOGI TAG "ACTIVE" [] ::
        ((List.replicate k active_cycle).flatten ++ active_cycle.take j) := by
  have hlen : active_cycle.length = 6 := rfl
  rw [show 1 + 6 * k + j = (6 * k + j) + 1 by ring, List.take_succ_cons,
    take_cycles active_cycle (by decide) n (6 * k + j) (by rw [hlen]; omega), hlen]
  rcases Nat.lt_or_eq_of_le hj with h | h
  · rw [show (6 * k + j) / 6 = k by omega, show (6 * k + j) % 6 = j by omega]
  · subst h
    rw [show (6 * k + 6) / 6 = k + 1 by omega, show (6 * k + 6) % 6 = 0 by omega,
      List.replicate_succ, List.flatten_cons]
    have : (List.replicate k active_cycle).flatten ++ List.take 6 active_cycle
        = (List.replicate (k + 1) active_cycle).flatten := by
      induction k with
      | zero => simp [active_cycle]
      | succ m ih =>
        rw [List.replicate_succ, List.flatten_cons, List.append_assoc, ih (by omega)]
        rw [List.replicate_succ (n := m + 1), List.flatten_cons]
    rw [this, List.replicate_succ, List.flatten_cons]
    simp

theorem active_elapsed (n k j : Nat) (hk : k < n) (hj : j ≤ 6) :
    elapsed_ms ((Event.ESP_LOGI TAG "ACTIVE" [] ::
        (List.replicate n active_cycle).flatten).take (1 + 6 * k + j)) =
      1000 * k + elapsed_ms (active_cycle.take j) := by
  rw [active_take n k j hk hj]
  rw [show Event.ESP_LOGI TAG "ACTIVE" [] ::
        ((List.replicate k active_cycle).flatten ++ active_cycle.take j) =
      [Event.ESP_LOGI TAG "ACTIVE" []] ++
        ((List.replicate k active_cycle).flatten ++ active_cycle.take j) from rfl,
    elapsed_ms_append, elapsed_ms_append, elapsed_ms_cycles]
  have h1 : elapsed_ms [Event.ESP_LOGI TAG "ACTIVE" []] = 0 := by decide
  have h2 : elapsed_ms active_cycle = 1000 := by decide
  rw [h1, h2]
  ring

theorem active_getElem? (n k j : Nat) (hk : k < n) (hj : j < 6) :
    (Event.ESP_LOGI TAG "ACTIVE" [] :: (List.replicate n active_cycle).flatten)[1 + 6 * k + j]? =
      active_cycle[j]? := by
  have hlen : active_cycle.length = 6 := rfl
  rw [show 1 + 6 * k + j = (6 * k + j) + 1 by ring, List.getElem?_cons_succ,
    getElem?_cycles active_cycle n (6 * k + j) (by rw [hlen]; omega), hlen,
    show (6 * k + j) % 6 = j by omega]

/-- C5: in mode `ACTIVE`, counting `d` ms for every delay of `d` ms and nothing for any
other call, every cycle `k` of the loop starts at `1000 * k` ms, drives the pin high at
that same instant, drives it low at `1000 * k + 100` ms, and the next cycle starts at
`1000 * (k + 1)` ms; the trace is the mode log line followed by identical cycles, none of
its events is a wake-timer or sleep call, and the loop is still running when the fuel is
spent. -/
theorem active_cycle_timing (b : Build) (w : World) (n k : Nat)
    (hmode : b.POWER_MODE = ACTIVE) (hk : k < n) :
    (compare_sleep_modes_power_consumption b w n).1 =
        Event.ESP_LOGI TAG "ACTIVE" [] ::
          (List.replicate n
            [Event.gpio_reset_pin GPIO_NUM_2,
             Event.gpio_set_direction GPIO_NUM_2 gpio_mode_t.GPIO_MODE_OUTPUT,
             Event.gpio_set_level GPIO_NUM_2 1,
             Event.vTaskDelay 100,
             Event.gpio_set_level GPIO_NUM_2 0,
             Event.vTaskDelay 900]).flatten ∧
      (compare_sleep_modes_power_consumption b w n).2 = Status.running ∧
      (compare_sleep_modes_power_consumption b w n).1[1 + 6 * k]? =
        some (Event.gpio_reset_pin GPIO_NUM_2) ∧
      elapsed_ms ((compare_sleep_modes_power_consumption b w n).1.take (1 + 6 * k)) =
        1000 * k ∧
      (compare_sleep_modes_power_consumption b w n).1[1 + 6 * k + 2]? =
        some (Event.gpio_set_level GPIO_NUM_2 1) ∧
      elapsed_ms ((compare_sleep_modes_power_consumption b w n).1.take (1 + 6 * k + 2)) =
        1000 * k ∧
      (compare_sleep_modes_power_consumption b w n).1[1 + 6 * k + 4]? =
        some (Event.gpio_set_level GPIO_NUM_2 0) ∧
      elapsed_ms ((compare_sleep_modes_power_consumption b w n).1.take (1 + 6 * k + 4)) =
        1000 * k + 100 ∧
      elapsed_ms ((compare_sleep_modes_power_consumption b w n).1.take (1 + 6 * (k + 1))) =
        1000 * (k + 1) ∧
      (∀ e ∈ (compare_sleep_modes_power_consumption b w n).1, is_sleep_call e = false) := by
  have hT := active_trace b w n hmode
  have hS : (compare_sleep_modes_power_consumption b w n).2 = Status.running := by
    unfold compare_sleep_modes_power_consumption
    rw [if_pos hmode, stay_active_loop, stay_active_while_status]
  rw [hT]
  refine ⟨rfl, hS, ?_, ?_, ?_, ?_, ?_, ?_, ?_, ?_⟩
  · have := active_getElem? n k 0 hk (by decide)
    simpa [active_cycle] using this
  · have := active_elapsed n k 0 hk (by decide)
    simpa [elapsed_ms] using this
  · have := active_getElem? n k 2 hk (by decide)
    simpa [active_cycle] using this
  · have := active_elapsed n k 2 hk (by decide)
    simpa [elapsed_ms, active_cycle] using this
  · have := active_getElem? n k 4 hk (by decide)
    simpa [active_cycle] using this
  · have := active_elapsed n k 4 hk (by decide)
    simpa [elapsed_ms, active_cycle] using this
  · have := active_elapsed n k 6 hk (by decide)
    rw [show 1 + 6 * (k + 1) = 1 + 6 * k + 6 by ring, this]
    have h2 : elapsed_ms (active_cycle.take 6) = 1000 := by decide
    rw [h2]
    ring
  · intro e he
    rcases List.mem_cons.mp he with h | h
    · subst h; rfl
    · rcases List.mem_flatten.mp h with ⟨l, hl, hel⟩
      have hl2 : l = active_cycle := (List.mem_replicate.mp hl).2
      subst hl2
      have hall : ∀ x ∈ active_cycle, is_sleep_call x = false := by decide
      exact hall e hel

/-- C5 at concrete inputs: the third cycle (`k = 2`) of four in the nominal world. -/
theorem active_cycle_timing_witness :
    (compare_sleep_modes_power_consumption ⟨ACTIVE, 5000000⟩ World.nominal 4).1[15]? =
        some (Event.gpio_set_level GPIO_NUM_2 1) ∧
      elapsed_ms ((compare_sleep_modes_power_consumption ⟨ACTIVE, 5000000⟩
        World.nominal 4).1.take 15) = 2000 ∧
      (compare_sleep_modes_power_consumption ⟨ACTIVE, 5000000⟩ World.nominal 4).1[17]? =
        some (Event.gpio_set_level GPIO_NUM_2 0) ∧
      elapsed_ms ((compare_sleep_modes_power_consumption ⟨ACTIVE, 5000000⟩
        World.nominal 4).1.take 17) = 2100 ∧
      elapsed_ms ((compare_sleep_modes_power_consumption ⟨ACTIVE, 5000000⟩
        World.nominal 4).1.take 19) = 3000 := by
  have h := active_cycle_timing ⟨ACTIVE, 5000000⟩ World.nominal 4 2 rfl (by decide)
  exact ⟨h.2.2.2.2.1, h.2.2.2.2.2.1, h.2.2.2.2.2.2.1, h.2.2.2.2.2.2.2.1, h.2.2.2.2.2.2.2.2.1⟩

/-! ## The light-sleep loop -/

theorem light_sleep_while_ok (b : Build) (w : World) (hus : b.WAKE_TIMER_US < 2 ^ 64)
    (harm : ∀ h us, w.esp_sleep_enable_timer_wakeup h us = ESP_OK)
    (hls : ∀ h, w.esp_light_sleep_start h = ESP_OK) (fuel : Nat) (tr : List Event) :
    light_sleep_while b w fuel tr =
      (tr ++ (List.replicate fuel (light_sleep_cycle b)).flatten, Status.running) := by
  have hm : b.WAKE_TIMER_US % 2 ^ 64 = b.WAKE_TIMER_US := Nat.mod_eq_of_lt hus
  induction fuel generalizing tr with
  | zero => simp [light_sleep_while]
  | succ n ih =>
    have hstep : enter_light_sleep_timer b w (blink_once tr) =
        (tr ++ light_sleep_cycle b, Status.returned) := by
      unfold enter_light_sleep_timer
      simp only [harm, hls, hm, ne_eq, not_true_eq_false, if_false]
      simp [blink_once, light_sleep_cycle]
    simp only [light_sleep_while, hstep]
    rw [ih, List.replicate_succ, List.flatten_cons, List.append_assoc]

/-- C4: in mode `LIGHT_SLEEP_TIMER`, when every arm call and every light-sleep entry
succeeds, the trace after `n` iterations is `n` copies of one cycle: pin setup, pin high,
100 ms delay, pin low, the mode log line, `esp_sleep_enable_timer_wakeup(WAKE_TIMER_US)`,
one `esp_light_sleep_start`, the wake log line; the loop is still running; and at every
light-sleep entry of the trace the pin is driven low and the event just before it is the
arm call with argument `WAKE_TIMER_US`. -/
theorem light_sleep_cycles (b : Build) (w : World) (n : Nat)
    (hmode : b.POWER_MODE = LIGHT_SLEEP_TIMER) (hus : b.WAKE_TIMER_US < 2 ^ 64)
    (harm : ∀ h us, w.esp_sleep_enable_timer_wakeup h us = ESP_OK)
    (hls : ∀ h, w.esp_light_sleep_start h = ESP_OK) :
    (compare_sleep_modes_power_consumption b w n).1 =
        (List.replicate n
          [Event.gpio_reset_pin GPIO_NUM_2,
           Event.gpio_set_direction GPIO_NUM_2 gpio_mode_t.GPIO_MODE_OUTPUT,
           Event.gpio_set_level GPIO_NUM_2 1,
           Event.vTaskDelay 100,
           Event.gpio_set_level GPIO_NUM_2 0,
           Event.ESP_LOGI TAG "LIGHT_SLEEP: %llus" [Arg.num (b.WAKE_TIMER_US / 1000000 : Nat)],
           Event.esp_sleep_enable_timer_wakeup b.WAKE_TIMER_US ESP_OK,
           Event.esp_light_sleep_start ESP_OK,
           Event.ESP_LOGI TAG "Woke up from light sleep." []]).flatten ∧
      (compare_sleep_modes_power_consumption b w n).2 = Status.running ∧
      (∀ i r, (compare_sleep_modes_power_consumption b w n).1[i]? =
          some (Event.esp_light_sleep_start r) →
        driven_level GPIO_NUM_2 ((compare_sleep_modes_power_consumption b w n).1.take i) =
            some 0 ∧
          ∃ j, i = j + 1 ∧ (compare_sleep_modes_power_consumption b w n).1[j]? =
            some (Event.esp_sleep_enable_timer_wakeup b.WAKE_TIMER_US ESP_OK)) := by
  have h0 : b.POWER_MODE ≠ ACTIVE := by rw [hmode]; decide
  have hrun : compare_sleep_modes_power_consumption b w n =
      ((List.replicate n (light_sleep_cycle b)).flatten, Status.running) := by
    unfold compare_sleep_modes_power_consumption
    rw [if_neg h0, if_pos hmode, light_sleep_while_ok b w hus harm hls]
    simp
  rw [hrun]
  refine ⟨rfl, rfl, ?_⟩
  intro i r hi
  simp only at hi ⊢
  have hlen : (light_sleep_cycle b).length = 9 := rfl
  have hlt : i < n * 9 := by
    have h := (List.getElem?_eq_some.mp hi).1
    rwa [length_cycles, hlen] at h
  have hmod : i % 9 < 9 := Nat.mod_lt _ (by decide)
  rw [getElem?_cycles _ n i (by rw [hlen]; exact hlt), hlen] at hi
  have h7 : i % 9 = 7 := by
    generalize i % 9 = m at hi hmod
    interval_cases m <;> simp [light_sleep_cycle] at hi ⊢
  constructor
  · rw [take_cycles _ (by rw [hlen]; decide) n i (by rw [hlen]; omega), hlen, h7,
      driven_level_append]
    simp [light_sleep_cycle, GPIO_NUM_2]
  · refine ⟨i - 1, by omega, ?_⟩
    rw [getElem?_cycles _ n (i - 1) (by rw [hlen]; omega), hlen,
      show (i - 1) % 9 = 6 by omega]
    rfl

/-- C4 at concrete inputs: two cycles of the light-sleep build in the nominal world; the
second light-sleep entry is event 16, right after the arm call at event 15. -/
theorem light_sleep_cycles_witness :
    (compare_sleep_modes_power_consumption ⟨LIGHT_SLEEP_TIMER, 5000000⟩ World.nominal 2).2 =
        Status.running ∧
      driven_level GPIO_NUM_2 ((compare_sleep_modes_power_consumption
        ⟨LIGHT_SLEEP_TIMER, 5000000⟩ World.nominal 2).1.take 16) = some 0 ∧
      ∃ j, 16 = j + 1 ∧ (compare_sleep_modes_power_consumption
        ⟨LIGHT_SLEEP_TIMER, 5000000⟩ World.nominal 2).1[j]? =
          some (Event.esp_sleep_enable_timer_wakeup 5000000 ESP_OK) := by
  have h := light_sleep_cycles ⟨LIGHT_SLEEP_TIMER, 5000000⟩ World.nominal 2 rfl (by decide)
    (fun _ _ => rfl) (fun _ => rfl)
  exact ⟨h.2.1, h.2.2 16 ESP_OK (by decide)⟩

/-! ## Failures are fatal -/

theorem clean_append {l₁ l₂ : List Event} (h₁ : clean l₁) (h₂ : clean l₂) :
    clean (l₁ ++ l₂) := by
  intro e he
  rcases List.mem_append.mp he with h | h
  · exact h₁ e h
  · exact h₂ e h

theorem fail_last_append {l₁ l₂ : List Event} {s : Status} (h₁ : clean l₁)
    (h₂ : fail_last l₂ s) : fail_last (l₁ ++ l₂) s := by
  rcases h₂ with ⟨hs, hc⟩ | ⟨hs, l, e, hl, hc, he⟩
  · exact Or.inl ⟨hs, clean_append h₁ hc⟩
  · refine Or.inr ⟨hs, l₁ ++ l, e, ?_, clean_append h₁ hc, he⟩
    rw [hl, List.append_assoc]

theorem fail_last_fatal {tr : List Event} {s : Status} (h : fail_last tr s) (i : Nat)
    (e : Event) (hi : tr[i]? = some e) (he : is_failure e = true) :
    i + 1 = tr.length ∧ s = Status.aborted := by
  rcases h with ⟨_, hc⟩ | ⟨hs, l, x, hl, hc, _⟩
  · have hmem : e ∈ tr := List.getElem?_mem hi
    have := hc e hmem
    rw [he] at this
    exact absurd this (by decide)
  · subst hl
    refine ⟨?_, hs⟩
    by_cases hlt : i < l.length
    · rw [List.getElem?_append_left hlt] at hi
      have := hc e (List.getElem?_mem hi)
      rw [he] at this
      exact absurd this (by decide)
    · have hlen := (List.getElem?_eq_some.mp hi).1
      simp only [List.length_append, List.length_singleton] at hlen ⊢
      omega

theorem clean_nil : clean [] := by
  intro e he
  simp at he

theorem clean_cons {e : Event} {l : List Event} (he : is_failure e = false) (hl : clean l) :
    clean (e :: l) := by
  intro x hx
  rcases List.mem_cons.mp hx with h | h
  · rw [h]; exact he
  · exact hl x h

theorem enter_light_sleep_timer_fail_last (b : Build) (w : World) (tr : List Event) :
    ∃ l, (enter_light_sleep_timer b w tr).1 = tr ++ l ∧
      fail_last l (enter_light_sleep_timer b w tr).2 := by
  unfold enter_light_sleep_timer
  simp only
  generalize b.WAKE_TIMER_US % 2 ^ 64 = us
  generalize he0 : Event.ESP_LOGI TAG "LIGHT_SLEEP: %llus" [Arg.num (us / 1000000 : Nat)] = e0
  have hc0 : is_failure e0 = false := by rw [← he0]; rfl
  generalize w.esp_sleep_enable_timer_wakeup (tr ++ [e0]) us = r1
  by_cases h1 : r1 = ESP_OK
  · rw [if_neg (not_not.mpr h1)]
    have hc1 : is_failure (Event.esp_sleep_enable_timer_wakeup us r1) = false := by
      simp [is_failure, h1]
    generalize w.esp_light_sleep_start
      (tr ++ [e0] ++ [Event.esp_sleep_enable_timer_wakeup us r1]) = r2
    by_cases h2 : r2 = ESP_OK
    · rw [if_neg (not_not.mpr h2)]
      have hc2 : is_failure (Event.esp_light_sleep_start r2) = false := by
        simp [is_failure, h2]
      exact ⟨[e0, Event.esp_sleep_enable_timer_wakeup us r1, Event.esp_light_sleep_start r2,
          Event.ESP_LOGI TAG "Woke up from light sleep." []], by simp,
        Or.inl ⟨by simp, clean_cons hc0 (clean_cons hc1 (clean_cons hc2
          (clean_cons rfl clean_nil)))⟩⟩
    · rw [if_pos h2]
      exact ⟨[e0, Event.esp_sleep_enable_timer_wakeup us r1, Event.esp_light_sleep_start r2],
        by simp,
        Or.inr ⟨rfl, [e0, Event.esp_sleep_enable_timer_wakeup us r1], _, rfl,
          clean_cons hc0 (clean_cons hc1 clean_nil), by simp [is_failure, h2]⟩⟩
  · rw [if_pos h1]
    exact ⟨[e0, Event.esp_sleep_enable_timer_wakeup us r1], by simp,
      Or.inr ⟨rfl, [e0], _, rfl, clean_cons hc0 clean_nil, by simp [is_failure, h1]⟩⟩

theorem clean_blink : clean [Event.gpio_reset_pin GPIO_NUM_2,
    Event.gpio_set_direction GPIO_NUM_2 gpio_mode_t.GPIO_MODE_OUTPUT,
    Event.gpio_set_level GPIO_NUM_2 1, Event.vTaskDelay 100,
    Event.gpio_set_level GPIO_NUM_2 0] := by
  unfold clean
  decide

theorem light_sleep_while_fail_last (b : Build) (w : World) (fuel : Nat) (tr : List Event) :
    ∃ l, (light_sleep_while b w fuel tr).1 = tr ++ l ∧
      fail_last l (light_sleep_while b w fuel tr).2 := by
  induction fuel generalizing tr with
  | zero =>
    exact ⟨[], by simp [light_sleep_while], Or.inl ⟨by simp [light_sleep_while], by
      intro e he; simp at he⟩⟩
  | succ n ih =>
    simp only [light_sleep_while]
    obtain ⟨l1, hl1, hf1⟩ := enter_light_sleep_timer_fail_last b w (blink_once tr)
    rcases h : enter_light_sleep_timer b w (blink_once tr) with ⟨tr1, s⟩
    rw [h] at hl1 hf1
    simp only at hl1 hf1
    have hb : blink_once tr = tr ++ [Event.gpio_reset_pin GPIO_NUM_2,
        Event.gpio_set_direction GPIO_NUM_2 gpio_mode_t.GPIO_MODE_OUTPUT,
        Event.gpio_set_level GPIO_NUM_2 1, Event.vTaskDelay 100,
        Event.gpio_set_level GPIO_NUM_2 0] := rfl
    cases s with
    | returned =>
      simp only
      obtain ⟨l2, hl2, hf2⟩ := ih tr1
      have hc1 : clean l1 := by
        rcases hf1 with ⟨_, hc⟩ | ⟨hs, _⟩
        · exact hc
        · exact absurd hs (by decide)
      refine ⟨_ ++ (l1 ++ l2), ?_, fail_last_append clean_blink (fail_last_append hc1 hf2)⟩
      rw [hl2, hl1, hb]
      simp
    | aborted =>
      simp only
      exact ⟨_ ++ l1, by rw [hl1, hb]; simp, fail_last_append clean_blink hf1⟩
    | halted =>
      simp only
      exact ⟨_ ++ l1, by rw [hl1, hb]; simp, fail_last_append clean_blink hf1⟩
    | running =>
      simp only
      exact ⟨_ ++ l1, by rw [hl1, hb]; simp, fail_last_append clean_blink hf1⟩

theorem enter_deep_sleep_timer_fail_last (b : Build) (w : World) (tr : List Event) :
    ∃ l, (enter_deep_sleep_timer b w tr).1 = tr ++ l ∧
      fail_last l (enter_deep_sleep_timer b w tr).2 := by
  unfold enter_deep_sleep_timer
  simp only
  generalize b.WAKE_TIMER_US % 2 ^ 64 = us
  generalize he0 : Event.ESP_LOGI TAG "DEEP_SLEEP: %llus." [Arg.num (us / 1000000 : Nat)] = e0
  have hc0 : is_failure e0 = false := by rw [← he0]; rfl
  generalize w.esp_sleep_enable_timer_wakeup (tr ++ [e0]) us = r1
  by_cases h1 : r1 = ESP_OK
  · rw [if_neg (not_not.mpr h1)]
    have hc1 : is_failure (Event.esp_sleep_enable_timer_wakeup us r1) = false := by
      simp [is_failure, h1]
    have hc : clean [e0, Event.esp_sleep_enable_timer_wakeup us r1,
        Event.esp_deep_sleep_start] :=
      clean_cons hc0 (clean_cons hc1 (clean_cons rfl clean_nil))
    split
    · exact ⟨_, by simp, Or.inl ⟨by simp, hc⟩⟩
    · exact ⟨_, by simp, Or.inl ⟨by simp, hc⟩⟩
  · rw [if_pos h1]
    exact ⟨[e0, Event.esp_sleep_enable_timer_wakeup us r1], by simp,
      Or.inr ⟨rfl, [e0], _, rfl, clean_cons hc0 clean_nil, by simp [is_failure, h1]⟩⟩

theorem sleep_modes_fail_last (b : Build) (w : World) (fuel : Nat) :
    fail_last (compare_sleep_modes_power_consumption b w fuel).1
      (compare_sleep_modes_power_consumption b w fuel).2 := by
  unfold compare_sleep_modes_power_consumption
  split
  · refine Or.inl ⟨?_, ?_⟩
    · rw [stay_active_loop, stay_active_while_status]; decide
    · rw [stay_active_loop, stay_active_while_trace]
      intro e he
      simp only [List.nil_append, List.singleton_append, List.mem_cons] at he
      rcases he with he | he
      · subst he; rfl
      · rcases List.mem_flatten.mp he with ⟨l, hl, hel⟩
        have hl2 : l = active_cycle := (List.mem_replicate.mp hl).2
        subst hl2
        have hall : ∀ x ∈ active_cycle, is_failure x = false := by decide
        exact hall e hel
  · split
    · obtain ⟨l, hl, hf⟩ := light_sleep_while_fail_last b w fuel []
      rw [hl]
      simpa using hf
    · split
      · obtain ⟨l, hl, hf⟩ := enter_deep_sleep_timer_fail_last b w []
        rw [hl]
        simpa using hf
      · exact Or.inl ⟨by decide, by unfold clean; decide⟩

theorem reported_elapsed_append (l₁ l₂ : List Event) :
    reported_elapsed (l₁ ++ l₂) = reported_elapsed l₁ ++ reported_elapsed l₂ := by
  simp [reported_elapsed, List.filterMap_append]

theorem appends_after {tr l₀ : List Event} {r : List Event × Status} (hc : clean l₀)
    (he : reported_elapsed l₀ = []) (h : appends (tr ++ l₀) r) : appends tr r := by
  obtain ⟨l, hl, hf, hr⟩ := h
  refine ⟨l₀ ++ l, ?_, fail_last_append hc hf, ?_⟩
  · rw [hl, List.append_assoc]
  · rw [reported_elapsed_append, he, hr]
    rfl

theorem appends_returned {tr tr1 : List Event} {r : List Event × Status}
    (h₁ : appends tr (tr1, Status.returned)) (h₂ : appends tr1 r) : appends tr r := by
  obtain ⟨l, hl, hf, hr⟩ := h₁
  simp only at hl hf
  have hc : clean l := by
    rcases hf with ⟨_, hc⟩ | ⟨hs, _⟩
    · exact hc
    · exact absurd hs (by decide)
  subst hl
  exact appends_after hc hr h₂

theorem print_cpu_hz_fmt_ne : print_cpu_hz_fmt ≠ elapsed_fmt := by decide

theorem newline_ne : "\n" ≠ elapsed_fmt := by decide

theorem print_cpu_hz_appends (w : World) (label : String) (tr : List Event) :
    appends tr (print_cpu_hz w label tr) := by
  unfold print_cpu_hz
  simp only
  generalize (w.esp_clk_tree_src_get_freq_hz tr).1 = r
  generalize (w.esp_clk_tree_src_get_freq_hz tr).2 % 2 ^ 32 = hz
  by_cases h : r = ESP_OK
  · rw [if_neg (not_not.mpr h)]
    refine ⟨[Event.esp_clk_tree_src_get_freq_hz r hz,
        Event.printf print_cpu_hz_fmt [Arg.str label, Arg.num (hz / 1000000 : Nat)]],
      by simp, Or.inl ⟨by simp, clean_cons (by simp [is_failure, h])
        (clean_cons rfl clean_nil)⟩, ?_⟩
    simp [reported_elapsed, print_cpu_hz_fmt_ne]
  · rw [if_pos h]
    exact ⟨[Event.esp_clk_tree_src_get_freq_hz r hz], by simp,
      Or.inr ⟨rfl, [], _, rfl, clean_nil, by simp [is_failure, h]⟩, rfl⟩

theorem sweep_step_appends (w : World) (cfg : esp_pm_config_t) (label : String)
    (tr : List Event) : appends tr (sweep_step w cfg label tr) := by
  unfold sweep_step
  simp only
  generalize w.esp_pm_configure tr cfg = r
  by_cases h : r = ESP_OK
  · rw [if_neg (not_not.mpr h)]
    have hc : clean [Event.esp_pm_configure cfg r] :=
      clean_cons (by simp [is_failure, h]) clean_nil
    have hp := print_cpu_hz_appends w label (tr ++ [Event.esp_pm_configure cfg r])
    rcases hq : print_cpu_hz w label (tr ++ [Event.esp_pm_configure cfg r]) with ⟨tr2, s⟩
    rw [hq] at hp
    cases s with
    | returned =>
      simp only
      refine appends_after hc rfl (appends_returned hp ?_)
      refine ⟨[Event.vTaskDelay 2000, Event.printf "\n" []], rfl,
        Or.inl ⟨by simp, clean_cons rfl (clean_cons rfl clean_nil)⟩, ?_⟩
      simp [reported_elapsed, newline_ne]
    | aborted => exact appends_after hc rfl hp
    | halted => exact appends_after hc rfl hp
    | running => exact appends_after hc rfl hp
  · rw [if_pos h]
    exact ⟨[Event.esp_pm_configure cfg r], by simp,
      Or.inr ⟨rfl, [], _, rfl, clean_nil, by simp [is_failure, h]⟩, rfl⟩

theorem sweep_body_appends (w : World) (cfg : esp_pm_config_t) (tr : List Event) :
    appends tr (sweep_body w cfg tr) := by
  unfold sweep_body
  have h1 := sweep_step_appends w (set_fixed cfg 80) "Frequency after cfg [80-80]" tr
  rcases hq1 : sweep_step w (set_fixed cfg 80) "Frequency after cfg [80-80]" tr with ⟨tr1, s1⟩
  rw [hq1] at h1
  cases s1 with
  | returned =>
    simp only
    have h2 := sweep_step_appends w (set_fixed (set_fixed cfg 80) 160)
      "Frequency after cfg [160-160]" tr1
    rcases hq2 : sweep_step w (set_fixed (set_fixed cfg 80) 160)
      "Frequency after cfg [160-160]" tr1 with ⟨tr2, s2⟩
    rw [hq2] at h2
    cases s2 with
    | returned =>
      simp only
      exact appends_returned h1 (appends_returned h2 (sweep_step_appends w _ _ tr2))
    | aborted => exact appends_returned h1 h2
    | halted => exact appends_returned h1 h2
    | running => exact appends_returned h1 h2
  | aborted => exact h1
  | halted => exact h1
  | running => exact h1

theorem sweep_while_appends (w : World) (fuel : Nat) (cfg : esp_pm_config_t)
    (tr : List Event) : appends tr (sweep_while w fuel cfg tr) := by
  induction fuel generalizing cfg tr with
  | zero => exact ⟨[], by simp [sweep_while], Or.inl ⟨by simp [sweep_while], clean_nil⟩, rfl⟩
  | succ n ih =>
    simp only [sweep_while]
    have h1 := sweep_body_appends w cfg tr
    rcases hq : sweep_body w cfg tr with ⟨tr1, s⟩
    rw [hq] at h1
    cases s with
    | returned => exact appends_returned h1 (ih _ tr1)
    | aborted => exact h1
    | halted => exact h1
    | running => exact h1

theorem clock_speeds_fail_last (w : World) (fuel : Nat) :
    fail_last (compare_clock_speeds_power_consumption w fuel).1
      (compare_clock_speeds_power_consumption w fuel).2 := by
  unfold compare_clock_speeds_power_consumption
  simp only
  generalize w.esp_pm_get_configuration [] = c0
  generalize hp0 : Event.printf default_cfg_fmt [Arg.num c0.min_freq_mhz,
    Arg.num c0.max_freq_mhz, Arg.str (true_false c0.light_sleep_enable)] = p0
  have hcp0 : is_failure p0 = false := by rw [← hp0]; rfl
  generalize w.esp_timer_get_time [Event.esp_pm_get_configuration c0, p0] = t0
  generalize w.esp_pm_configure ([Event.esp_pm_get_configuration c0, p0] ++
    [Event.esp_timer_get_time t0]) ⟨80, 240, false⟩ = r
  by_cases h : r = ESP_OK
  · rw [if_neg (not_not.mpr h)]
    obtain ⟨l, hl, hf, _⟩ := sweep_while_appends w fuel ⟨80, 240, false⟩
      ([Event.esp_pm_get_configuration c0, p0] ++ [Event.esp_timer_get_time t0] ++
        [Event.esp_pm_configure ⟨80, 240, false⟩ r] ++
        [Event.esp_timer_get_time (w.esp_timer_get_time
            ([Event.esp_pm_get_configuration c0, p0] ++ [Event.esp_timer_get_time t0] ++
              [Event.esp_pm_configure ⟨80, 240, false⟩ r])),
          Event.printf first_cfg_fmt
            [Arg.num (80 : Int), Arg.num (240 : Int), Arg.str (true_false false)],
          Event.printf elapsed_fmt
            [Arg.num ((sub_uint64 (to_uint64 (w.esp_timer_get_time
                ([Event.esp_pm_get_configuration c0, p0] ++ [Event.esp_timer_get_time t0] ++
                  [Event.esp_pm_configure ⟨80, 240, false⟩ r]))) (to_uint64 t0) : Nat) : Int),
             Arg.ratio (sub_uint64 (to_uint64 (w.esp_timer_get_time
                ([Event.esp_pm_get_configuration c0, p0] ++ [Event.esp_timer_get_time t0] ++
                  [Event.esp_pm_configure ⟨80, 240, false⟩ r]))) (to_uint64 t0)) 1000],
          Event.printf "\n" [],
          Event.esp_pm_dump_locks,
          Event.printf locks_remark []])
    rw [hl]
    refine fail_last_append ?_ hf
    refine clean_append (clean_append (clean_append ?_ ?_) ?_) ?_
    · exact clean_cons rfl (clean_cons hcp0 clean_nil)
    · exact clean_cons rfl clean_nil
    · exact clean_cons (by simp [is_failure, h]) clean_nil
    · exact clean_cons rfl (clean_cons rfl (clean_cons rfl (clean_cons rfl
        (clean_cons rfl (clean_cons rfl clean_nil)))))
  · rw [if_pos h]
    exact Or.inr ⟨rfl, [Event.esp_pm_get_configuration c0, p0] ++
      [Event.esp_timer_get_time t0], _, rfl,
      clean_cons rfl (clean_cons hcp0 (clean_cons rfl clean_nil)), by simp [is_failure, h]⟩

/-- C7: in both runners, for every world and every amount of fuel, a configuration
submission (the first one or any sweep step), a wake-timer arm call or a light-sleep entry
(or a clock query) that reports failure is the last event of the trace and the run ends
aborted: no later call is made, so a failed arm call is followed by no light-sleep or
deep-sleep entry, and a failed light-sleep entry by no wake log line and no further
cycle. -/
theorem hardware_failure_is_fatal (b : Build) (w : World) (fuel i : Nat) (e : Event)
    (he : is_failure e = true) :
    ((compare_sleep_modes_power_consumption b w fuel).1[i]? = some e →
      i + 1 = (compare_sleep_modes_power_consumption b w fuel).1.length ∧
        (compare_sleep_modes_power_consumption b w fuel).2 = Status.aborted) ∧
    ((compare_clock_speeds_power_consumption w fuel).1[i]? = some e →
      i + 1 = (compare_clock_speeds_power_consumption w fuel).1.length ∧
        (compare_clock_speeds_power_consumption w fuel).2 = Status.aborted) :=
  ⟨fun hi => fail_last_fatal (sleep_modes_fail_last b w fuel) i e hi he,
   fun hi => fail_last_fatal (clock_speeds_fail_last w fuel) i e hi he⟩

/-- C7 at concrete inputs: in the light-sleep build, a world whose arm call fails in the
second cycle; the failed arm call is event 15 of 16 and the run is aborted. -/
theorem hardware_failure_is_fatal_witness :
    (compare_sleep_modes_power_consumption ⟨LIGHT_SLEEP_TIMER, 5000000⟩
        World.arm_fails_later 5).1[15]? =
        some (Event.esp_sleep_enable_timer_wakeup 5000000 ESP_FAIL) ∧
      15 + 1 = (compare_sleep_modes_power_consumption ⟨LIGHT_SLEEP_TIMER, 5000000⟩
        World.arm_fails_later 5).1.length ∧
      (compare_sleep_modes_power_consumption ⟨LIGHT_SLEEP_TIMER, 5000000⟩
        World.arm_fails_later 5).2 = Status.aborted :=
  ⟨by decide,
   (hardware_failure_is_fatal ⟨LIGHT_SLEEP_TIMER, 5000000⟩ World.arm_fails_later 5 15
     (Event.esp_sleep_enable_timer_wakeup 5000000 ESP_FAIL) (by decide)).1 (by decide)⟩

/-! ## The frequency-sweep runner: the first configuration -/

theorem clock_speeds_shape (w : World) (fuel : Nat) :
    ∃ c0 t0 r, r = w.esp_pm_configure
        [Event.esp_pm_get_configuration c0,
         Event.printf default_cfg_fmt [Arg.num c0.min_freq_mhz, Arg.num c0.max_freq_mhz,
           Arg.str (true_false c0.light_sleep_enable)],
         Event.esp_timer_get_time t0] ⟨80, 240, false⟩ ∧
      ((r ≠ ESP_OK ∧ compare_clock_speeds_power_consumption w fuel =
          ([Event.esp_pm_get_configuration c0,
            Event.printf default_cfg_fmt [Arg.num c0.min_freq_mhz, Arg.num c0.max_freq_mhz,
              Arg.str (true_false c0.light_sleep_enable)],
            Event.esp_timer_get_time t0,
            Event.esp_pm_configure ⟨80, 240, false⟩ r], Status.aborted)) ∨
       (r = ESP_OK ∧ ∃ t1, compare_clock_speeds_power_consumption w fuel =
          sweep_while w fuel ⟨80, 240, false⟩ (sweep_prelude c0 t0 t1))) := by
  refine ⟨w.esp_pm_get_configuration [],
    w.esp_timer_get_time [Event.esp_pm_get_configuration (w.esp_pm_get_configuration []),
      Event.printf default_cfg_fmt [Arg.num (w.esp_pm_get_configuration []).min_freq_mhz,
        Arg.num (w.esp_pm_get_configuration []).max_freq_mhz,
        Arg.str (true_false (w.esp_pm_get_configuration []).light_sleep_enable)]],
    _, rfl, ?_⟩
  unfold compare_clock_speeds_power_consumption
  simp only [List.cons_append, List.nil_append]
  split
  · rename_i h
    exact Or.inl ⟨h, rfl⟩
  · rename_i h
    have h' := not_not.mp h
    refine Or.inr ⟨h', ?_⟩
    rw [h']
    exact ⟨_, rfl⟩

theorem elapsed_exact (t0 t1 : Int) (h0 : 0 ≤ t0) (h01 : t0 ≤ t1) (h1 : t1 < 2 ^ 63) :
    ((sub_uint64 (to_uint64 t1) (to_uint64 t0) : Nat) : Int) = t1 - t0 := by
  unfold sub_uint64 to_uint64
  omega

theorem reported_elapsed_prelude (c0 : esp_pm_config_t) (t0 t1 : Int) :
    reported_elapsed (sweep_prelude c0 t0 t1) =
      [Arg.num (sub_uint64 (to_uint64 t1) (to_uint64 t0) : Nat)] := by
  have h1 : default_cfg_fmt ≠ elapsed_fmt := by decide
  have h2 : first_cfg_fmt ≠ elapsed_fmt := by decide
  have h3 : locks_remark ≠ elapsed_fmt := by decide
  simp [reported_elapsed, sweep_prelude, h1, h2, h3, newline_ne]

/-- C9: around the first, wide-range configuration call, when the clock returned `t0`
before it and `t1` after it with `0 ≤ t0 ≤ t1 < 2 ^ 63`, the one elapsed value reported is
`t1 - t0`, equal to the `uint64_t` subtraction with no wrap-around and not negative; when
that configuration call reports failure nothing is reported and the run is aborted; and
whenever an elapsed value is reported the call had returned `ESP_OK`. -/
theorem first_configuration_elapsed (w : World) (fuel : Nat) (t0 t1 : Int)
    (h0 : 0 ≤ t0) (h01 : t0 ≤ t1) (h1 : t1 < 2 ^ 63) :
    ((compare_clock_speeds_power_consumption w fuel).1[2]? =
          some (Event.esp_timer_get_time t0) →
        (compare_clock_speeds_power_consumption w fuel).1[4]? =
          some (Event.esp_timer_get_time t1) →
        reported_elapsed (compare_clock_speeds_power_consumption w fuel).1 =
            [Arg.num (t1 - t0)] ∧
          ((sub_uint64 (to_uint64 t1) (to_uint64 t0) : Nat) : Int) = t1 - t0 ∧
          0 ≤ t1 - t0) ∧
      (∀ c r, (compare_clock_speeds_power_consumption w fuel).1[3]? =
          some (Event.esp_pm_configure c r) → r ≠ ESP_OK →
        reported_elapsed (compare_clock_speeds_power_consumption w fuel).1 = [] ∧
          (compare_clock_speeds_power_consumption w fuel).2 = Status.aborted) ∧
      (reported_elapsed (compare_clock_speeds_power_consumption w fuel).1 ≠ [] →
        (compare_clock_speeds_power_consumption w fuel).1[3]? =
          some (Event.esp_pm_configure ⟨80, 240, false⟩ ESP_OK)) := by
  have hd : default_cfg_fmt ≠ elapsed_fmt := by decide
  obtain ⟨c0, s0, r, _, hcase⟩ := clock_speeds_shape w fuel
  rcases hcase with ⟨hr, hrun⟩ | ⟨hr, s1, hrun⟩
  · rw [hrun]
    refine ⟨?_, ?_, ?_⟩
    · intro _ h4
      simp at h4
    · intro c r' _ _
      exact ⟨by simp [reported_elapsed, hd], rfl⟩
    · intro hne
      exact absurd (by simp [reported_elapsed, hd]) hne
  · obtain ⟨l, hl, _, hrep⟩ := sweep_while_appends w fuel ⟨80, 240, false⟩
      (sweep_prelude c0 s0 s1)
    rw [← hrun] at hl
    rw [hl]
    have hrepT : reported_elapsed (sweep_prelude c0 s0 s1 ++ l) =
        [Arg.num (sub_uint64 (to_uint64 s1) (to_uint64 s0) : Nat)] := by
      rw [reported_elapsed_append, hrep, reported_elapsed_prelude]
      rfl
    refine ⟨?_, ?_, ?_⟩
    · intro h2 h4
      have e2 : s0 = t0 := by simpa [sweep_prelude] using h2
      have e4 : s1 = t1 := by simpa [sweep_prelude] using h4
      subst e2 e4
      rw [hrepT, elapsed_exact s0 s1 h0 h01 h1]
      exact ⟨rfl, rfl, by omega⟩
    · intro c r' h3 hne
      have : r' = ESP_OK := by
        have h := h3
        simp [sweep_prelude] at h
        exact h.2.symm
      exact absurd this hne
    · intro _
      simp [sweep_prelude]

/-- C9 at concrete inputs: the clock reads 1000000 then 1000250 around the first
configuration call, and the one reported elapsed value is 250. -/
theorem first_configuration_elapsed_witness :
    reported_elapsed (compare_clock_speeds_power_consumption World.quarter_ms 1).1 =
      [Arg.num (1000250 - 1000000)] :=
  ((first_configuration_elapsed World.quarter_ms 1 1000000 1000250 (by decide) (by decide)
    (by decide)).1 (by decide) (by decide)).1

/-! ## The frequency-sweep runner: the sweep loop -/

theorem sweep_step_ok (w : World) (hcfg : ∀ h c, w.esp_pm_configure h c = ESP_OK)
    (hclk : ∀ h, (w.esp_clk_tree_src_get_freq_hz h).1 = ESP_OK)
    (cfg : esp_pm_config_t) (label : String) (tr : List Event) :
    ∃ hz, hz < 2 ^ 32 ∧ sweep_step w cfg label tr =
      (tr ++ [Event.esp_pm_configure cfg ESP_OK,
          Event.esp_clk_tree_src_get_freq_hz ESP_OK hz,
          Event.printf print_cpu_hz_fmt [Arg.str label, Arg.num (hz / 1000000 : Nat)],
          Event.vTaskDelay 2000, Event.printf "\n" []], Status.returned) := by
  refine ⟨(w.esp_clk_tree_src_get_freq_hz (tr ++ [Event.esp_pm_configure cfg ESP_OK])).2
    % 2 ^ 32, Nat.mod_lt _ (by decide), ?_⟩
  unfold sweep_step print_cpu_hz
  simp [hcfg, hclk]

theorem sweep_body_ok (w : World) (hcfg : ∀ h c, w.esp_pm_configure h c = ESP_OK)
    (hclk : ∀ h, (w.esp_clk_tree_src_get_freq_hz h).1 = ESP_OK)
    (cfg : esp_pm_config_t) (hls : cfg.light_sleep_enable = false) (tr : List Event) :
    ∃ a b c, a < 2 ^ 32 ∧ b < 2 ^ 32 ∧ c < 2 ^ 32 ∧ sweep_body w cfg tr =
      (tr ++ (sweep_block 0 a ++ sweep_block 1 b ++ sweep_block 2 c), Status.returned) := by
  obtain ⟨min0, max0, ls0⟩ := cfg
  simp only at hls
  subst hls
  unfold sweep_body
  simp only [set_fixed]
  obtain ⟨a, ha, h1⟩ := sweep_step_ok w hcfg hclk ⟨80, 80, false⟩
    "Frequency after cfg [80-80]" tr
  rw [h1]
  simp only
  obtain ⟨b, hb, h2⟩ := sweep_step_ok w hcfg hclk ⟨160, 160, false⟩
    "Frequency after cfg [160-160]" (tr ++ sweep_block 0 a)
  have e1 : tr ++ [Event.esp_pm_configure ⟨80, 80, false⟩ ESP_OK,
      Event.esp_clk_tree_src_get_freq_hz ESP_OK a,
      Event.printf print_cpu_hz_fmt
        [Arg.str "Frequency after cfg [80-80]", Arg.num (a / 1000000 : Nat)],
      Event.vTaskDelay 2000, Event.printf "\n" []] = tr ++ sweep_block 0 a := rfl
  rw [e1, h2]
  simp only
  obtain ⟨c, hc, h3⟩ := sweep_step_ok w hcfg hclk ⟨240, 240, false⟩
    "Frequency after cfg [240-240]" (tr ++ sweep_block 0 a ++ sweep_block 1 b)
  have e2 : tr ++ sweep_block 0 a ++ [Event.esp_pm_configure ⟨160, 160, false⟩ ESP_OK,
      Event.esp_clk_tree_src_get_freq_hz ESP_OK b,
      Event.printf print_cpu_hz_fmt
        [Arg.str "Frequency after cfg [160-160]", Arg.num (b / 1000000 : Nat)],
      Event.vTaskDelay 2000, Event.printf "\n" []] =
      tr ++ sweep_block 0 a ++ sweep_block 1 b := rfl
  rw [e2, h3]
  refine ⟨a, b, c, ha, hb, hc, ?_⟩
  simp [sweep_block]

theorem sweep_while_ok (w : World) (hcfg : ∀ h c, w.esp_pm_configure h c = ESP_OK)
    (hclk : ∀ h, (w.esp_clk_tree_src_get_freq_hz h).1 = ESP_OK) (fuel : Nat)
    (cfg : esp_pm_config_t) (hls : cfg.light_sleep_enable = false) (tr : List Event) :
    ∃ l, sweep_while w fuel cfg tr = (tr ++ l, Status.running) ∧ l.length = 15 * fuel ∧
      ∀ k, k < 3 * fuel → ∃ hz, hz < 2 ^ 32 ∧ (l.drop (5 * k)).take 5 = sweep_block (k % 3) hz := by
  induction fuel generalizing cfg tr with
  | zero =>
    refine ⟨[], by simp [sweep_while], rfl, ?_⟩
    intro k hk
    omega
  | succ n ih =>
    obtain ⟨a, b, c, ha, hb, hc, hbody⟩ := sweep_body_ok w hcfg hclk cfg hls tr
    obtain ⟨l, hl, hlen, hblocks⟩ := ih (set_fixed (set_fixed (set_fixed cfg 80) 160) 240) hls
      (tr ++ (sweep_block 0 a ++ sweep_block 1 b ++ sweep_block 2 c))
    refine ⟨(sweep_block 0 a ++ sweep_block 1 b ++ sweep_block 2 c) ++ l, ?_, ?_, ?_⟩
    · simp only [sweep_while, hbody]
      rw [hl, List.append_assoc]
    · rw [List.length_append, hlen]
      simp only [sweep_block, List.length_append, List.length_cons, List.length_nil]
      omega
    · intro k hk
      have hB : (sweep_block 0 a ++ sweep_block 1 b ++ sweep_block 2 c).length = 15 := rfl
      by_cases h3 : k < 3
      · interval_cases k
        · exact ⟨a, ha, by simp [sweep_block]⟩
        · exact ⟨b, hb, by simp [sweep_block]⟩
        · exact ⟨c, hc, by simp [sweep_block]⟩
      · obtain ⟨hz, hhz, hblk⟩ := hblocks (k - 3) (by omega)
        refine ⟨hz, hhz, ?_⟩
        have e : 5 * k = (sweep_block 0 a ++ sweep_block 1 b ++ sweep_block 2 c).length +
            5 * (k - 3) := by rw [hB]; omega
        rw [e, List.drop_append, hblk, show (k - 3) % 3 = k % 3 by omega]

theorem clock_speeds_ok (w : World) (hcfg : ∀ h c, w.esp_pm_configure h c = ESP_OK)
    (hclk : ∀ h, (w.esp_clk_tree_src_get_freq_hz h).1 = ESP_OK) (fuel : Nat) :
    ∃ c0 t0 t1 l, compare_clock_speeds_power_consumption w fuel =
        (sweep_prelude c0 t0 t1 ++ l, Status.running) ∧ l.length = 15 * fuel ∧
      ∀ k, k < 3 * fuel → ∃ hz, hz < 2 ^ 32 ∧ (l.drop (5 * k)).take 5 = sweep_block (k % 3) hz := by
  obtain ⟨c0, t0, r, hr, hcase⟩ := clock_speeds_shape w fuel
  rcases hcase with ⟨hne, _⟩ | ⟨_, t1, hrun⟩
  · exact absurd (hr.trans (hcfg _ _)) hne
  · obtain ⟨l, hl, hlen, hblocks⟩ := sweep_while_ok w hcfg hclk fuel ⟨80, 240, false⟩ rfl
      (sweep_prelude c0 t0 t1)
    exact ⟨c0, t0, t1, l, hrun.trans hl, hlen, hblocks⟩

theorem drop_after_prelude (c0 : esp_pm_config_t) (t0 t1 : Int) (l : List Event) (i : Nat) :
    (sweep_prelude c0 t0 t1 ++ l).drop (10 + i) = l.drop i := by
  have h : (sweep_prelude c0 t0 t1).length = 10 := rfl
  rw [← h, List.drop_append]

theorem getElem?_of_take_drop {l : List Event} {i j : Nat} {blk : List Event}
    (h : (l.drop i).take 5 = blk) (hj : j < 5) : l[i + j]? = blk[j]? := by
  rw [← h, List.getElem?_take_of_lt hj, List.getElem?_drop]

theorem sweep_label_80 : sweep_label 80 = "Frequency after cfg [80-80]" := by decide

theorem sweep_label_160 : sweep_label 160 = "Frequency after cfg [160-160]" := by decide

theorem sweep_label_240 : sweep_label 240 = "Frequency after cfg [240-240]" := by decide

theorem sweep_block_eq (m hz : Nat) (hm : m < 3) :
    sweep_block m hz =
      [Event.esp_pm_configure ⟨((80 + 80 * m : Nat) : Int), ((80 + 80 * m : Nat) : Int), false⟩
         ESP_OK,
       Event.esp_clk_tree_src_get_freq_hz ESP_OK hz,
       Event.printf print_cpu_hz_fmt
         [Arg.str (sweep_label (80 + 80 * m)), Arg.num (hz / 1000000 : Nat)],
       Event.vTaskDelay 2000, Event.printf "\n" []] := by
  interval_cases m
  · simp [sweep_block, sweep_label_80]
  · simp [sweep_block, sweep_label_160]
  · simp [sweep_block, sweep_label_240]

/-- C8: when every configuration submission and clock query succeeds, the calls made
before the sweep loop (the first ten events, log output left out) are, in order,
`esp_pm_get_configuration`, a clock read, one `esp_pm_configure` with 80, 240 and light
sleep disabled, a second clock read and `esp_pm_dump_locks`; the next event is the first
submission of the loop; and the runner is still running after any number of loop
iterations, so it never returns. -/
theorem clock_speeds_prelude_order (w : World) (fuel : Nat)
    (hcfg : ∀ h c, w.esp_pm_configure h c = ESP_OK)
    (hclk : ∀ h, (w.esp_clk_tree_src_get_freq_hz h).1 = ESP_OK) :
    ∃ c0 t0 t1,
      service_calls ((compare_clock_speeds_power_consumption w fuel).1.take 10) =
        [Event.esp_pm_get_configuration c0,
         Event.esp_timer_get_time t0,
         Event.esp_pm_configure ⟨80, 240, false⟩ ESP_OK,
         Event.esp_timer_get_time t1,
         Event.esp_pm_dump_locks] ∧
      ((compare_clock_speeds_power_consumption w fuel).1.take 10).length = 10 ∧
      (0 < fuel → (compare_clock_speeds_power_consumption w fuel).1[10]? =
        some (Event.esp_pm_configure ⟨80, 80, false⟩ ESP_OK)) ∧
      (compare_clock_speeds_power_consumption w fuel).1.length = 10 + 15 * fuel ∧
      (compare_clock_speeds_power_consumption w fuel).2 = Status.running := by
  obtain ⟨c0, t0, t1, l, hrun, hlen, hblocks⟩ := clock_speeds_ok w hcfg hclk fuel
  have hp : (sweep_prelude c0 t0 t1).length = 10 := rfl
  refine ⟨c0, t0, t1, ?_⟩
  rw [hrun]
  simp only
  have htake : (sweep_prelude c0 t0 t1 ++ l).take 10 = sweep_prelude c0 t0 t1 := by
    rw [List.take_append_of_le_length (by rw [hp]), List.take_of_length_le (by rw [hp])]
  refine ⟨?_, ?_, ?_, ?_, trivial⟩
  · rw [htake]
    simp [service_calls, sweep_prelude, is_output]
  · rw [htake, hp]
  · intro hpos
    obtain ⟨hz, _, hblk⟩ := hblocks 0 (by omega)
    have h := getElem?_of_take_drop (j := 0) hblk (by decide)
    rw [List.getElem?_append_right (by rw [hp]), hp]
    simpa [sweep_block] using h
  · rw [List.length_append, hp, hlen]

/-- C8 at concrete inputs: the nominal world read its clock at 2000 and 4000 µs. -/
theorem clock_speeds_prelude_order_witness :
    ∃ c0 t0 t1,
      service_calls ((compare_clock_speeds_power_consumption World.nominal 2).1.take 10) =
        [Event.esp_pm_get_configuration c0,
         Event.esp_timer_get_time t0,
         Event.esp_pm_configure ⟨80, 240, false⟩ ESP_OK,
         Event.esp_timer_get_time t1,
         Event.esp_pm_dump_locks] ∧
      (compare_clock_speeds_power_consumption World.nominal 2).2 = Status.running := by
  obtain ⟨c0, t0, t1, h⟩ :=
    clock_speeds_prelude_order World.nominal 2 (fun _ _ => rfl) (fun _ => rfl)
  exact ⟨c0, t0, t1, h.1, h.2.2.2.2⟩

/-- C6: when every configuration submission and clock query succeeds, the `k`-th
submission of the sweep loop (counted from 0) carries minimum = maximum =
`80 + 80 * (k % 3)` MHz with light sleep disabled, so minimum ≤ maximum; it is followed by
exactly one clock query, one report line, a delay of 2000 ms and a newline, after which the
next submission (if the fuel allows one) follows; the loop part of the trace has 15 events
per iteration and the runner is still running. -/
theorem sweep_loop_steps (w : World) (fuel k : Nat)
    (hcfg : ∀ h c, w.esp_pm_configure h c = ESP_OK)
    (hclk : ∀ h, (w.esp_clk_tree_src_get_freq_hz h).1 = ESP_OK) (hk : k < 3 * fuel) :
    (∃ hz label,
      ((compare_clock_speeds_power_consumption w fuel).1.drop (10 + 5 * k)).take 5 =
        [Event.esp_pm_configure
           ⟨80 + 80 * ((k % 3 : Nat) : Int), 80 + 80 * ((k % 3 : Nat) : Int), false⟩ ESP_OK,
         Event.esp_clk_tree_src_get_freq_hz ESP_OK hz,
         Event.printf print_cpu_hz_fmt [Arg.str label, Arg.num (hz / 1000000 : Nat)],
         Event.vTaskDelay 2000,
         Event.printf "\n" []]) ∧
      (∃ c, (compare_clock_speeds_power_consumption w fuel).1[10 + 5 * k]? =
          some (Event.esp_pm_configure c ESP_OK) ∧
        c.min_freq_mhz ≤ c.max_freq_mhz ∧ c.light_sleep_enable = false) ∧
      (k + 1 < 3 * fuel →
        ∃ c, (compare_clock_speeds_power_consumption w fuel).1[10 + 5 * (k + 1)]? =
          some (Event.esp_pm_configure c ESP_OK)) ∧
      (compare_clock_speeds_power_consumption w fuel).1.length = 10 + 15 * fuel ∧
      (compare_clock_speeds_power_consumption w fuel).2 = Status.running := by
  obtain ⟨c0, t0, t1, l, hrun, hlen, hblocks⟩ := clock_speeds_ok w hcfg hclk fuel
  have hp : (sweep_prelude c0 t0 t1).length = 10 := rfl
  rw [hrun]
  simp only
  have hm : k % 3 < 3 := Nat.mod_lt _ (by decide)
  obtain ⟨hz, _, hblk⟩ := hblocks k hk
  rw [sweep_block_eq _ _ hm] at hblk
  have hcast : ((80 + 80 * (k % 3) : Nat) : Int) = 80 + 80 * ((k % 3 : Nat) : Int) := by
    push_cast
    ring
  rw [hcast] at hblk
  refine ⟨⟨hz, sweep_label (80 + 80 * (k % 3)), ?_⟩, ?_, ?_, ?_, trivial⟩
  · rw [drop_after_prelude]
    exact hblk
  · refine ⟨⟨80 + 80 * ((k % 3 : Nat) : Int), 80 + 80 * ((k % 3 : Nat) : Int), false⟩,
      ?_, le_refl _, rfl⟩
    have hd := drop_after_prelude c0 t0 t1 l (5 * k)
    have h2 := getElem?_of_take_drop (j := 0) (hd ▸ hblk) (by decide)
    simpa using h2
  · intro hk1
    have hm1 : (k + 1) % 3 < 3 := Nat.mod_lt _ (by decide)
    obtain ⟨hz1, _, hblk1⟩ := hblocks (k + 1) hk1
    rw [sweep_block_eq _ _ hm1] at hblk1
    have hd := drop_after_prelude c0 t0 t1 l (5 * (k + 1))
    have h2 := getElem?_of_take_drop (j := 0) (hd ▸ hblk1) (by decide)
    exact ⟨_, by simpa using h2⟩
  · rw [List.length_append, hp, hlen]

/-- C6 at concrete inputs: submission 4 of two loop iterations in the nominal world is the
160 MHz step. -/
theorem sweep_loop_steps_witness :
    ∃ hz label,
      ((compare_clock_speeds_power_consumption World.nominal 2).1.drop (10 + 5 * 4)).take 5 =
        [Event.esp_pm_configure
           ⟨80 + 80 * ((4 % 3 : Nat) : Int), 80 + 80 * ((4 % 3 : Nat) : Int), false⟩ ESP_OK,
         Event.esp_clk_tree_src_get_freq_hz ESP_OK hz,
         Event.printf print_cpu_hz_fmt [Arg.str label, Arg.num (hz / 1000000 : Nat)],
         Event.vTaskDelay 2000,
         Event.printf "\n" []] :=
  (sweep_loop_steps World.nominal 2 4 (fun _ _ => rfl) (fun _ => rfl) (by decide)).1

/-- C10: `print_cpu_hz` reports `hz / 1000000` (floor division, a value below `2 ^ 32`)
for every clock value `hz` below `2 ^ 32`; and in the sweep loop, when every submission and
clock query succeeds, the `k`-th read-back `hz` follows the submission of
minimum = maximum = `t = 80 + 80 * (k % 3)` and is reported as `hz / 1000000` under the
label `Frequency after cfg [t-t]`, which is `t` when `hz = t * 1000000`. -/
theorem reported_frequency (w : World) (fuel k : Nat)
    (hcfg : ∀ h c, w.esp_pm_configure h c = ESP_OK)
    (hclk : ∀ h, (w.esp_clk_tree_src_get_freq_hz h).1 = ESP_OK) (hk : k < 3 * fuel) :
    (∀ label tr, (w.esp_clk_tree_src_get_freq_hz tr).2 < 2 ^ 32 →
      print_cpu_hz w label tr =
          (tr ++ [Event.esp_clk_tree_src_get_freq_hz ESP_OK
                    (w.esp_clk_tree_src_get_freq_hz tr).2,
                  Event.printf print_cpu_hz_fmt
                    [Arg.str label,
                     Arg.num ((w.esp_clk_tree_src_get_freq_hz tr).2 / 1000000 : Nat)]],
            Status.returned) ∧
        (w.esp_clk_tree_src_get_freq_hz tr).2 / 1000000 < 2 ^ 32) ∧
      (∀ hz, (compare_clock_speeds_power_consumption w fuel).1[10 + 5 * k + 1]? =
          some (Event.esp_clk_tree_src_get_freq_hz ESP_OK hz) →
        hz < 2 ^ 32 ∧
          (compare_clock_speeds_power_consumption w fuel).1[10 + 5 * k]? =
            some (Event.esp_pm_configure
              ⟨((80 + 80 * (k % 3) : Nat) : Int), ((80 + 80 * (k % 3) : Nat) : Int), false⟩
              ESP_OK) ∧
          (compare_clock_speeds_power_consumption w fuel).1[10 + 5 * k + 2]? =
            some (Event.printf print_cpu_hz_fmt
              [Arg.str (sweep_label (80 + 80 * (k % 3))), Arg.num (hz / 1000000 : Nat)]) ∧
          (hz = (80 + 80 * (k % 3)) * 1000000 → hz / 1000000 = 80 + 80 * (k % 3))) := by
  constructor
  · intro label tr hlt
    refine ⟨?_, ?_⟩
    · unfold print_cpu_hz
      simp only [hclk, Nat.mod_eq_of_lt hlt, ne_eq, not_true_eq_false, if_false,
        List.append_assoc, List.cons_append, List.nil_append]
    · omega
  · intro hz hq
    obtain ⟨c0, t0, t1, l, hrun, hlen, hblocks⟩ := clock_speeds_ok w hcfg hclk fuel
    rw [hrun] at hq ⊢
    simp only at hq ⊢
    have hm : k % 3 < 3 := Nat.mod_lt _ (by decide)
    obtain ⟨hz', hlt, hblk⟩ := hblocks k hk
    rw [sweep_block_eq _ _ hm] at hblk
    have hd := drop_after_prelude c0 t0 t1 l (5 * k)
    have g0 := getElem?_of_take_drop (j := 0) (hd ▸ hblk) (by decide)
    have g1 := getElem?_of_take_drop (j := 1) (hd ▸ hblk) (by decide)
    have g2 := getElem?_of_take_drop (j := 2) (hd ▸ hblk) (by decide)
    rw [g1] at hq
    have e : hz' = hz := by simpa using hq
    subst e
    refine ⟨hlt, ?_, ?_, ?_⟩
    · simpa using g0
    · simpa using g2
    · intro h
      omega

/-- C10 at concrete inputs: in a world whose clock follows the submitted maximum, the
second read-back of the loop is 160000000 Hz and is reported as 160 under the label
`Frequency after cfg [160-160]`. -/
theorem reported_frequency_witness :
    (compare_clock_speeds_power_consumption World.tracking 1).1[10 + 5 * 1 + 2]? =
      some (Event.printf print_cpu_hz_fmt
        [Arg.str (sweep_label (80 + 80 * (1 % 3))), Arg.num (160000000 / 1000000 : Nat)]) :=
  ((reported_frequency World.tracking 1 1 (fun _ _ => rfl)
    (fun h => by unfold World.tracking; simp only; split <;> rfl) (by decide)).2
      160000000 (by decide)).2.2.1

end PowerManagement
